import Mathlib

/-!
Verification development for the DevIntel repository (src/devintel.py and
src/server.py). The Python source is shallowly embedded: each Python function
relevant to the frozen claims is translated into an executable Lean definition,
external collaborators (sentence-transformer embedder, hashlib digest, the DSPy
reasoning oracle, socket sends, the pgvector distance operator) are passed in as
explicit parameters or modelled as concrete deterministic functions, and the
three storage backends (Redis stream, PostgreSQL, Neo4j) are modelled as pure
state values threaded through the operations.
-/

/-! ### JSON values (Python dict / list / scalar payloads)

Python event payloads (content, context, metrics) are open key-value maps.
They are modelled as association lists of JSON values. Numbers are modelled as
rationals (Python floats such as confidence scores are out of exact-float
scope; only equality and presence of numbers matter to the claims). -/

inductive JVal where
  | str (s : String)
  | num (q : Rat)
  | bool (b : Bool)
  | null
  | arr (xs : List JVal)
  | obj (fields : List (String × JVal))

/-- Association-list lookup keyed by strings, modelling Python dict access. -/
def assocFind (key : String) : List (String × JVal) → Option JVal
  | [] => none
  | (k, v) :: rest => if k = key then some v else assocFind key rest

/-- Models Python dict.get(key, "") for string-valued fields, as used for
content.get("message", "") and content.get("code_context", ""). Non-string
values are out of model scope and map to the default. -/
def contentStr (c : List (String × JVal)) (key : String) : String :=
  match assocFind key c with
  | some (JVal.str s) => s
  | _ => ""

/-- Sorting of rendered object fields by key, modelling the key ordering that
json.dumps performs with sort_keys=True (Python sorted is stable; on the
distinct keys of a dict any correct sort gives the same list). -/
def fieldLe (a b : String × String) : Prop := a.1 ≤ b.1

instance : DecidableRel fieldLe := fun a b => inferInstanceAs (Decidable (a.1 ≤ b.1))

instance : IsTotal (String × String) fieldLe := ⟨fun a b => le_total a.1 b.1⟩

instance : IsTrans (String × String) fieldLe := ⟨fun _ _ _ => le_trans⟩

def sortFields (l : List (String × String)) : List (String × String) :=
  List.insertionSort fieldLe l

/-- Rendering of a JSON value to the string json.dumps(v, sort_keys=True)
produces: default separators, object keys emitted in sorted order at every
nesting level. String escaping is out of model scope (payload strings are
assumed escape-free). -/
def dumpsSorted : JVal → String
  | JVal.str s => "\"" ++ s ++ "\""
  | JVal.num q => toString q
  | JVal.bool b => if b then "true" else "false"
  | JVal.null => "null"
  | JVal.arr xs => "[" ++ String.intercalate ", " (dumpsArr xs) ++ "]"
  | JVal.obj fs =>
      "\x7b" ++ String.intercalate ", " ((sortFields (dumpsFields fs)).map Prod.snd) ++ "\x7d"
where
  dumpsArr : List JVal → List String
    | [] => []
    | v :: vs => dumpsSorted v :: dumpsArr vs
  dumpsFields : List (String × JVal) → List (String × String)
    | [] => []
    | (k, v) :: fs => (k, "\"" ++ k ++ "\": " ++ dumpsSorted v) :: dumpsFields fs

/-- Modelled collaborator: hashlib.sha256(...).hexdigest() from the Python
standard library. The digest is external library code; the only property the
repository relies on is that it is a deterministic function of its input
string, so it is modelled by a concrete deterministic digest. -/
def sha256hex (s : String) : String :=
  toString (s.toList.foldl (fun h c => (h * 131 + c.toNat) % 2 ^ 64) 7)

/-! ### EventType and DevEvent (devintel.py lines 28-61) -/

inductive EventType where
  | log
  | error
  | warn
  | network
  | performance
  | solution_attempt
  | solution_outcome
deriving DecidableEq

/-- The .value string of each enum member (devintel.py lines 29-35). -/
def EventType.value : EventType → String
  | .log => "log"
  | .error => "error"
  | .warn => "warn"
  | .network => "network"
  | .performance => "performance"
  | .solution_attempt => "solution_attempt"
  | .solution_outcome => "solution_outcome"

/-- Models the Python enum constructor EventType(s): the member whose value is
s, or failure (ValueError) when no member matches. -/
def eventTypeOfString (s : String) : Option EventType :=
  if s = "log" then some .log
  else if s = "error" then some .error
  else if s = "warn" then some .warn
  else if s = "network" then some .network
  else if s = "performance" then some .performance
  else if s = "solution_attempt" then some .solution_attempt
  else if s = "solution_outcome" then some .solution_outcome
  else none

/-- Embedding vectors (numpy arrays from the sentence-transformer collaborator)
are modelled as rational vectors. -/
abbrev Embedding := List Rat

/-- DevEvent dataclass (devintel.py lines 37-47). Timestamps are modelled as
naturals; datetime.isoformat is modelled by numeral rendering. The session_id
field is typed str in Python but ingest_event fills it from
raw_event.get("session_id"), which may be None, so it is modelled as Option. -/
structure DevEvent where
  id : String
  type : EventType
  timestamp : Nat
  session_id : Option String
  content : List (String × JVal)
  stack_trace : Option String
  context : List (String × JVal)
  embedding : Option Embedding := none

/-- Models datetime.isoformat on the model timestamp. -/
def isoformat (t : Nat) : String := toString t

/-- Changelog entry dict returned by DevEvent.to_changelog_entry
(devintel.py lines 49-61). -/
structure ChangelogEntry where
  id : String
  type : String
  timestamp : String
  session_id : Option String
  content : List (String × JVal)
  context : List (String × JVal)
  hash : String

/-- DevEvent.to_changelog_entry (devintel.py lines 49-61): the hash field is
sha256 of json.dumps(self.content, sort_keys=True). -/
def DevEvent.to_changelog_entry (e : DevEvent) : ChangelogEntry :=
  { id := e.id
    type := e.type.value
    timestamp := isoformat e.timestamp
    session_id := e.session_id
    content := e.content
    context := e.context
    hash := sha256hex (dumpsSorted (JVal.obj e.content)) }

/-! ### Storage layer (devintel.py StorageBackend, lines 96-197)

The three backends are modelled as pure state. A FacetFaults record injects
the failure behavior of the external backends (a true flag means the
corresponding call raises); the Python code contains no error handling in
store_event, so a raised exception propagates immediately. -/

/-- One row of the PostgreSQL dev_events table (schema at devintel.py
lines 130-140). JSONB columns are modelled structurally. -/
structure PgRow where
  id : String
  type : String
  timestamp : Nat
  session_id : Option String
  content : List (String × JVal)
  stack_trace : Option String
  context : List (String × JVal)
  embedding : Embedding
  changelog : ChangelogEntry

/-- One row of the solutions table (schema at devintel.py lines 145-154).
success_rate is FLOAT DEFAULT 0 and nullable after an UPDATE to NULL;
created_at is unused by the claims and omitted. -/
structure SolutionRow where
  id : String
  error_pattern : String
  solution_code : String
  explanation : String
  success_rate : Option Rat
  usage_count : Nat
  dspy_history : Option (List (String × JVal))

/-- Event node in Neo4j as written by store_event (MERGE plus SET). -/
structure GraphEventNode where
  id : String
  type : String
  timestamp : String
  session_id : Option String

/-- Outcome node in Neo4j as written by record_outcome. -/
structure OutcomeNode where
  id : String
  success : Bool
  metrics : String
  timestamp : String

/-- Neo4j graph facet: the nodes and edges the claims touch. -/
structure GraphState where
  eventNodes : List GraphEventNode
  sessionNodes : List (Option String)
  belongsEdges : List (String × Option String)
  solutionNodes : List (String × String × Rat)
  solvedByEdges : List (String × String × String)
  outcomeNodes : List OutcomeNode
  resultedInEdges : List (String × String)

/-- Combined state of the three storage facets. The Redis stream entry holds
the serialized event (xadd at devintel.py lines 165-171); it is modelled as
the event value itself. -/
structure StorageState where
  stream : List DevEvent
  dev_events : List PgRow
  solutions : List SolutionRow
  graph : GraphState

def graph0 : GraphState :=
  { eventNodes := [], sessionNodes := [], belongsEdges := [], solutionNodes := []
    solvedByEdges := [], outcomeNodes := [], resultedInEdges := [] }

def st0 : StorageState :=
  { stream := [], dev_events := [], solutions := [], graph := graph0 }

/-- Fault injection for the external backends used by store_event. -/
structure FacetFaults where
  embedFails : Bool := false
  streamFails : Bool := false
  pgFails : Bool := false
  graphFails : Bool := false

def noFaults : FacetFaults := {}

/-- Modelled collaborator: SentenceTransformer.encode. An external embedding
function; no claim depends on its values, so it is modelled by a concrete
deterministic function. -/
def encodeText (s : String) : Embedding := [(s.length : Rat)]

/-- The text embedded by store_event (devintel.py lines 160-162):
the message field of the content followed by the stack trace, with
Python or-defaulting of a missing stack trace to the empty string. -/
def embedInput (e : DevEvent) : String :=
  contentStr e.content "message" ++ " " ++ (e.stack_trace.getD "")

/-- Neo4j MERGE of the Event node: update in place when an id match exists,
otherwise append (devintel.py lines 187-191). -/
def mergeEventNode (nodes : List GraphEventNode) (n : GraphEventNode) : List GraphEventNode :=
  if nodes.any (fun m => m.id == n.id) then
    nodes.map (fun m => if m.id == n.id then n else m)
  else nodes ++ [n]

/-- Neo4j MERGE of the Session node (devintel.py line 192). -/
def mergeSessionNode (nodes : List (Option String)) (sid : Option String) : List (Option String) :=
  if nodes.contains sid then nodes else nodes ++ [sid]

/-- StorageBackend.store_event (devintel.py lines 157-197). The four steps run
strictly in sequence with no try/except: computing the embedding, appending to
the Redis stream, inserting the PostgreSQL row, and merging the Neo4j nodes
and BELONGS_TO edge. The returned triple is the event as mutated by the call
(the embedding attachment at line 160 is visible to the caller), the state
after whichever writes completed, and the propagated exception if any step
raised. -/
def store_event (f : FacetFaults) (event : DevEvent) (st : StorageState) :
    DevEvent × StorageState × Option String :=
  if f.embedFails then (event, st, some "embedding failure") else
  let event := { event with embedding := some (encodeText (embedInput event)) }
  if f.streamFails then (event, st, some "redis failure") else
  let st := { st with stream := st.stream ++ [event] }
  if f.pgFails then (event, st, some "postgres failure") else
  let row : PgRow :=
    { id := event.id, type := event.type.value, timestamp := event.timestamp
      session_id := event.session_id, content := event.content
      stack_trace := event.stack_trace, context := event.context
      embedding := event.embedding.getD [], changelog := event.to_changelog_entry }
  let st := { st with dev_events := st.dev_events ++ [row] }
  if f.graphFails then (event, st, some "neo4j failure") else
  let node : GraphEventNode :=
    { id := event.id, type := event.type.value
      timestamp := isoformat event.timestamp, session_id := event.session_id }
  let st :=
    { st with graph :=
        { st.graph with
            eventNodes := mergeEventNode st.graph.eventNodes node
            sessionNodes := mergeSessionNode st.graph.sessionNodes event.session_id
            belongsEdges := st.graph.belongsEdges ++ [(event.id, event.session_id)] } }
  (event, st, none)

/-! ### Intelligence layer (devintel.py DevIntelligence, lines 201-330) -/

/-- Output model of the reasoning oracle (devintel.py SolutionSuggestion,
lines 73-80). -/
structure SolutionSuggestion where
  root_cause : String
  solution_code : String
  explanation : String
  confidence : Rat
  similar_cases : List String
  pattern_name : String

/-- Input model assembled for the oracle (devintel.py ErrorContext,
lines 65-71). -/
structure ErrorContext where
  error_message : String
  stack_trace : String
  code_context : String
  framework : String
  recent_actions : List String

/-- Row summary returned by _find_similar_errors: the SELECT projects id,
content, stack_trace and the similarity 1 - (embedding <=> query). -/
structure SimilarRow where
  id : String
  content : List (String × JVal)
  stack_trace : Option String
  similarity : Rat

/-- Ordering of rows by distance to the query embedding, modelling
ORDER BY embedding <=> $1 ascending. -/
def distRel (dq : PgRow → Rat) (a b : PgRow) : Prop := dq a ≤ dq b

instance (dq : PgRow → Rat) : DecidableRel (distRel dq) :=
  fun a b => inferInstanceAs (Decidable (dq a ≤ dq b))

instance (dq : PgRow → Rat) : IsTotal PgRow (distRel dq) := ⟨fun a b => le_total (dq a) (dq b)⟩

instance (dq : PgRow → Rat) : IsTrans PgRow (distRel dq) := ⟨fun _ _ _ => le_trans⟩

/-- DevIntelligence._find_similar_errors (devintel.py lines 258-271). The
pgvector cosine-distance operator <=> is an external collaborator and is passed
in as dist. The SQL keeps rows of type error whose id differs from the query
id, orders by ascending distance, limits to 5 and projects the summary with
similarity 1 - distance. -/
def find_similar_errors (dist : Embedding → Embedding → Rat) (qEmb : Embedding)
    (qId : String) (rows : List PgRow) : List SimilarRow :=
  let kept := rows.filter (fun r => decide (r.type = "error" ∧ r.id ≠ qId))
  let sorted := List.insertionSort (distRel (fun r => dist qEmb r.embedding)) kept
  (sorted.take 5).map (fun r =>
    { id := r.id, content := r.content, stack_trace := r.stack_trace
      similarity := 1 - dist qEmb r.embedding })

/-- Ordering of rows by descending timestamp, modelling
ORDER BY timestamp DESC. -/
def tsDescRel (a b : PgRow) : Prop := b.timestamp ≤ a.timestamp

instance : DecidableRel tsDescRel :=
  fun a b => inferInstanceAs (Decidable (b.timestamp ≤ a.timestamp))

/-- DevIntelligence._get_recent_events (devintel.py lines 273-283): rows of
the session ordered by descending timestamp, limited (default limit 20).
A NULL session id matches no row under SQL equality. -/
def get_recent_events (st : StorageState) (session_id : Option String)
    (limit : Nat := 20) : List PgRow :=
  match session_id with
  | none => []
  | some sid =>
      ((List.insertionSort tsDescRel
          (st.dev_events.filter (fun r => decide (r.session_id = some sid)))).take limit)

/-- Python negative-start slice l[-10:]: the last ten elements
(the whole list when it is shorter). -/
def pyLastTen {α : Type} (l : List α) : List α := l.drop (l.length - 10)

/-- Framework lookup context.get("framework", default empty dict) followed by
.get("name", "unknown") (devintel.py line 223). -/
def frameworkName (ctx : List (String × JVal)) : String :=
  match assocFind "framework" ctx with
  | some (JVal.obj o) =>
      match assocFind "name" o with
      | some (JVal.str s) => s
      | _ => "unknown"
  | _ => "unknown"

/-- The ErrorContext assembled by analyze_error (devintel.py lines 219-225):
the rolling context recent_actions is the message text of each element of
recent_events[-10:], where recent_events came from _get_recent_events with its
default limit of 20 in descending timestamp order. -/
def buildErrorContext (event : DevEvent) (recent_events : List PgRow) : ErrorContext :=
  { error_message := contentStr event.content "message"
    stack_trace := event.stack_trace.getD ""
    code_context := contentStr event.content "code_context"
    framework := frameworkName event.context
    recent_actions := (pyLastTen recent_events).map (fun r => contentStr r.content "message") }

/-- DevIntelligence._store_solution_attempt (devintel.py lines 285-314).
The PostgreSQL INSERT ... ON CONFLICT (id) DO UPDATE increments usage_count on
an existing row and otherwise inserts a fresh row whose dspy_history JSON
object has exactly the keys history and confidence. The Neo4j write MATCHes
the Event node; when it is absent the whole Cypher pattern produces nothing,
otherwise it MERGEs the Solution node and CREATEs a SOLVED_BY edge. -/
def store_solution_attempt (now : Nat) (event : DevEvent) (solution : SolutionSuggestion)
    (historyText : String) (st : StorageState) : StorageState :=
  let solution_id := "sol_" ++ event.id
  let solutions :=
    if st.solutions.any (fun r => r.id == solution_id) then
      st.solutions.map (fun r =>
        if r.id == solution_id then { r with usage_count := r.usage_count + 1 } else r)
    else
      st.solutions ++
        [{ id := solution_id
           error_pattern := contentStr event.content "message"
           solution_code := solution.solution_code
           explanation := solution.explanation
           success_rate := some 0
           usage_count := 0
           dspy_history := some
             [("history", JVal.str historyText), ("confidence", JVal.num solution.confidence)] }]
  let st := { st with solutions := solutions }
  if st.graph.eventNodes.any (fun n => n.id == event.id) then
    { st with graph :=
        { st.graph with
            solutionNodes :=
              if st.graph.solutionNodes.any (fun s => s.1 == solution_id) then
                st.graph.solutionNodes.map (fun s =>
                  if s.1 == solution_id then (solution_id, solution.solution_code, solution.confidence)
                  else s)
              else st.graph.solutionNodes ++
                [(solution_id, solution.solution_code, solution.confidence)]
            solvedByEdges :=
              st.graph.solvedByEdges ++ [(event.id, solution_id, isoformat now)] } }
  else st

/-- DevIntelligence.analyze_error (devintel.py lines 210-235). The similar
errors are fetched but never used afterwards (the local variable is dead in
the source); the recent events use the default limit of 20; the oracle (the
DSPy TypedPredictor, an external collaborator) is passed in as the already
determined outcome of its single invocation; on oracle success the solution
attempt is stored, on oracle failure the exception propagates and the state
is unchanged. The dspy history string passed to the store step is modelled as
an opaque constant. -/
def analyze_error (now : Nat) (dist : Embedding → Embedding → Rat)
    (oracle : Except String SolutionSuggestion) (event : DevEvent)
    (st : StorageState) : StorageState × Except String SolutionSuggestion :=
  let _similar := find_similar_errors dist (event.embedding.getD []) event.id st.dev_events
  let recent := get_recent_events st event.session_id
  let _ctx := buildErrorContext event recent
  match oracle with
  | Except.error e => (st, Except.error e)
  | Except.ok solution =>
      (store_solution_attempt now event solution "history" st, Except.ok solution)

/-! ### API layer (devintel.py DevIntelAPI, lines 387-474) -/

/-- Raw ingestion payload as received by ingest_event (a JSON dict from the
browser extension or the server). An absent dict key is modelled as none; the
stack field only occurs on the server path, where process_event reads
event_data.get("stack", event_data.get("stack_trace")). -/
structure RawEvent where
  type : Option String := none
  session_id : Option String := none
  content : List (String × JVal) := []
  stack_trace : Option String := none
  stack : Option String := none
  context : List (String × JVal) := []

/-- Python dict.get(key, default) for optional string fields. -/
def pyGetD (o : Option String) (d : String) : String := o.getD d

/-- Rendering of raw_event.get("type") inside an f-string: None renders as
the literal text None. -/
def pyOptStr : Option String → String
  | none => "None"
  | some s => s

/-- The exceptions that can escape ingest_event: the ValueError raised by the
EventType constructor on an unknown type string, a storage backend failure
propagated out of store_event, and an oracle failure propagated out of
analyze_error. -/
inductive IngestError where
  | valueError (typeString : String)
  | storage (msg : String)
  | analysis (msg : String)
deriving DecidableEq

/-- The dict returned by ingest_event: the non-error path carries
status stored and no solution, the error-analysis path carries a solution and
no status (devintel.py lines 416-428). -/
structure IngestResponse where
  event_id : String
  status : Option String
  solution : Option SolutionSuggestion
  changelog : ChangelogEntry

/-- The DevEvent construction at the top of ingest_event (devintel.py
lines 402-410): the id interpolates the raw, undefaulted type value; the type
defaults to log before the enum constructor runs; the session id is copied
from the payload without any validation. -/
def ingestNormalize (now : Nat) (raw : RawEvent) : Except IngestError DevEvent :=
  let typeStr := pyGetD raw.type "log"
  match eventTypeOfString typeStr with
  | none => Except.error (IngestError.valueError typeStr)
  | some t =>
      Except.ok
        { id := "evt_" ++ toString now ++ "_" ++ pyOptStr raw.type
          type := t
          timestamp := now
          session_id := raw.session_id
          content := raw.content
          stack_trace := raw.stack_trace
          context := raw.context
          embedding := none }

/-- DevIntelAPI.ingest_event (devintel.py lines 399-428): construct the event
(the enum constructor may raise), store it across the facets (any backend
failure propagates), and when the event type is error run the analysis, whose
failure also propagates; otherwise answer with status stored. -/
def ingest_event (now : Nat) (dist : Embedding → Embedding → Rat) (f : FacetFaults)
    (oracle : Except String SolutionSuggestion) (raw : RawEvent)
    (st : StorageState) : StorageState × Except IngestError IngestResponse :=
  match ingestNormalize now raw with
  | Except.error e => (st, Except.error e)
  | Except.ok event =>
      let stored := store_event f event st
      match stored.2.2 with
      | some msg => (stored.2.1, Except.error (IngestError.storage msg))
      | none =>
          let event := stored.1
          if event.type = EventType.error then
            match analyze_error now dist oracle event stored.2.1 with
            | (st2, Except.ok solution) =>
                (st2, Except.ok
                  { event_id := event.id, status := none, solution := some solution
                    changelog := event.to_changelog_entry })
            | (st2, Except.error e) => (st2, Except.error (IngestError.analysis e))
          else
            (stored.2.1, Except.ok
              { event_id := event.id, status := some "stored", solution := none
                changelog := event.to_changelog_entry })

/-- RealtimeEventProcessor.process_event (server.py lines 99-154): the whole
body sits in a try/except, so the ValueError of the EventType constructor and
every exception out of ingest_event are swallowed and None is returned; on
success the ingest result is returned. The event dict passed on to
ingest_event carries the normalized type value, the session id of the
connection, and stack taken from event_data.get("stack",
event_data.get("stack_trace")). The broadcasts to the session registry are
modelled separately by the ConnectionManager operations and elided here. -/
def process_event (now : Nat) (dist : Embedding → Embedding → Rat) (f : FacetFaults)
    (oracle : Except String SolutionSuggestion) (event_data : RawEvent)
    (session_id : String) (st : StorageState) : StorageState × Option IngestResponse :=
  match eventTypeOfString (pyGetD event_data.type "log") with
  | none => (st, none)
  | some t =>
      let raw2 : RawEvent :=
        { type := some t.value
          session_id := some session_id
          content := event_data.content
          stack_trace := event_data.stack <|> event_data.stack_trace
          stack := none
          context := event_data.context }
      match ingest_event now dist f oracle raw2 st with
      | (st2, Except.ok r) => (st2, some r)
      | (st2, Except.error _) => (st2, none)

/-- The boolean list extracted by the success-rate subquery: the elements of
dspy_history -> outcomes, each cast through (o ->> success)::boolean, with
COALESCE to the empty array when the key is absent. The key outcomes is never
written anywhere in the repository. -/
def historyOutcomes (h : Option (List (String × JVal))) : List Bool :=
  match h with
  | some fields =>
      match assocFind "outcomes" fields with
      | some (JVal.arr xs) =>
          xs.filterMap (fun v =>
            match v with
            | JVal.obj o =>
                match assocFind "success" o with
                | some (JVal.bool b) => some b
                | _ => none
            | _ => none)
      | _ => []
  | none => []

/-- SQL AVG over CASE WHEN success THEN 1.0 ELSE 0.0 END: NULL on the empty
set, otherwise the arithmetic mean. -/
def sqlAvg (l : List Bool) : Option Rat :=
  if l.isEmpty then none else some ((l.countP id : Rat) / (l.length : Rat))

/-- DevIntelAPI.record_outcome (devintel.py lines 438-474). The Neo4j write
MATCHes the Solution node; when it exists an Outcome node and a RESULTED_IN
edge are created, otherwise the pattern produces nothing. The PostgreSQL
UPDATE then recomputes success_rate for the matching solutions row from the
dspy_history -> outcomes array. -/
def record_outcome (now : Nat) (solution_id : String) (success : Bool)
    (metrics : List (String × JVal)) (st : StorageState) : StorageState :=
  let st :=
    if st.graph.solutionNodes.any (fun s => s.1 == solution_id) then
      { st with graph :=
          { st.graph with
              outcomeNodes := st.graph.outcomeNodes ++
                [{ id := "out_" ++ toString now, success := success
                   metrics := dumpsSorted (JVal.obj metrics), timestamp := isoformat now }]
              resultedInEdges := st.graph.resultedInEdges ++
                [(solution_id, "out_" ++ toString now)] } }
    else st
  { st with solutions := st.solutions.map (fun r =>
      if r.id == solution_id then { r with success_rate := sqlAvg (historyOutcomes r.dspy_history) }
      else r) }

/-- Projection used by the outcome claims: the success_rate of the solutions
row with the given id, when such a row exists. -/
def solutionRateById (st : StorageState) (solution_id : String) : Option (Option Rat) :=
  (st.solutions.find? (fun r => r.id == solution_id)).map (fun r => r.success_rate)

/-! ### ConnectionManager (server.py lines 37-89)

The registry state holds the three Python dicts. Python dict and set iteration
orders are modelled as insertion order of the backing lists; member lists
representing Python sets stay duplicate-free by construction of the add
operation. Socket sends are external collaborators injected as a predicate
from client id to send success. -/

/-- Metadata dict stored per connection by set_client_metadata; only the
session_id entry is read back by the registry. -/
structure CMeta where
  session_id : Option String := none
  source : Option String := none
  url : Option String := none
  workspace : Option String := none

structure CMState where
  active : List String
  sessions : List (String × List String)
  metadata : List (String × CMeta)

def cmInit : CMState := { active := [], sessions := [], metadata := [] }

/-- Read of session_connections[sid] without key creation (used after an
explicit membership check, or as the empty default). -/
def sessGet : List (String × List String) → String → List String
  | [], _ => []
  | (k, ms) :: rest, sid => if k = sid then ms else sessGet rest sid

def sessHasKey (sessions : List (String × List String)) (sid : String) : Bool :=
  sessions.any (fun p => p.1 == sid)

/-- defaultdict(set) access session_connections[sid].add(cid): create the
entry when absent, add the member when not already present. -/
def sessAdd : List (String × List String) → String → String → List (String × List String)
  | [], sid, cid => [(sid, [cid])]
  | (k, ms) :: rest, sid, cid =>
      if k = sid then (k, if cid ∈ ms then ms else ms ++ [cid]) :: rest
      else (k, ms) :: sessAdd rest sid cid

/-- set.discard on the membership set of one session. -/
def sessDiscard : List (String × List String) → String → String → List (String × List String)
  | [], _, _ => []
  | (k, ms) :: rest, sid, cid =>
      if k = sid then (k, ms.erase cid) :: rest
      else (k, ms) :: sessDiscard rest sid cid

/-- Metadata dict write (plain assignment, replacing any previous entry). -/
def metaSet : List (String × CMeta) → String → CMeta → List (String × CMeta)
  | [], cid, m => [(cid, m)]
  | (k, v) :: rest, cid, m =>
      if k = cid then (k, m) :: rest else (k, v) :: metaSet rest cid m

def metaGet : List (String × CMeta) → String → Option CMeta
  | [], _ => none
  | (k, v) :: rest, cid => if k = cid then some v else metaGet rest cid

def metaErase : List (String × CMeta) → String → List (String × CMeta)
  | [], _ => []
  | (k, v) :: rest, cid => if k = cid then rest else (k, v) :: metaErase rest cid

/-- ConnectionManager.connect (server.py lines 43-46): register the accepted
socket handle under the fresh client id. -/
def cmConnect (cid : String) (st : CMState) : CMState :=
  { st with active := st.active ++ [cid] }

/-- ConnectionManager.disconnect (server.py lines 48-61): everything is
guarded by membership of the active dict; the session membership is dropped
only when the metadata session id is truthy (so not None and not the empty
string) and its session key exists; finally the metadata entry is deleted. -/
def cmDisconnect (cid : String) (st : CMState) : CMState :=
  if st.active.contains cid then
    let st := { st with active := st.active.erase cid }
    let msid := (metaGet st.metadata cid).bind (fun m => m.session_id)
    let st :=
      match msid with
      | some sid =>
          if sid ≠ "" ∧ sessHasKey st.sessions sid then
            { st with sessions := sessDiscard st.sessions sid cid }
          else st
      | none => st
    { st with metadata := metaErase st.metadata cid }
  else st

/-- ConnectionManager.set_client_metadata (server.py lines 85-89): store the
metadata and, when it carries a session id, add the connection to that
sessions membership set. Nothing removes the connection from a previously
bound session. The Python code guards with the truthiness of session_id, so
an empty string is not added. -/
def set_client_metadata (cid : String) (m : CMeta) (st : CMState) : CMState :=
  match m.session_id with
  | some sid =>
      if sid ≠ "" then
        { st with metadata := metaSet st.metadata cid m
                  sessions := sessAdd st.sessions sid cid }
      else { st with metadata := metaSet st.metadata cid m }
  | none => { st with metadata := metaSet st.metadata cid m }

/-- ConnectionManager.send_personal_message (server.py lines 63-69): a no-op
for an unregistered id; otherwise the send is attempted and a raising send is
caught, logged, and answered by an immediate disconnect of that client. The
returned list carries the delivered (client, message) pairs. -/
def send_personal_message (sendOk : String → Bool) (message : String) (cid : String)
    (st : CMState) : CMState × List (String × String) :=
  if st.active.contains cid then
    if sendOk cid then (st, [(cid, message)])
    else (cmDisconnect cid st, [])
  else (st, [])

def sessionSize (st : CMState) (sid : String) : Nat := (sessGet st.sessions sid).length

/-- The for-loop of broadcast_to_session iterating the live membership set.
CPython set iterators raise RuntimeError from next() whenever the set size
has changed since the iterator was created, including on the final call that
would otherwise end the loop; origSize records the size at loop entry. The
try/except inside the Python loop is dead (send_personal_message traps its
own failures and never raises), so the deferred disconnected list of the
source stays empty and is elided. The result is the state reached, the
delivered pairs, and the RuntimeError if one was raised. -/
def broadcastLoop (sendOk : String → Bool) (message : String) (sid : String)
    (origSize : Nat) : List String → CMState → List (String × String) →
    CMState × List (String × String) × Option String
  | [], st, delivered =>
      if sessionSize st sid ≠ origSize then
        (st, delivered, some "RuntimeError: Set changed size during iteration")
      else (st, delivered, none)
  | c :: rest, st, delivered =>
      if sessionSize st sid ≠ origSize then
        (st, delivered, some "RuntimeError: Set changed size during iteration")
      else
        let step := send_personal_message sendOk message c st
        broadcastLoop sendOk message sid origSize rest step.1 (delivered ++ step.2)

/-- ConnectionManager.broadcast_to_session (server.py lines 71-83): a no-op
for an unknown session key; otherwise the live membership set is iterated
and each member is sent the message through send_personal_message. -/
def broadcast_to_session (sendOk : String → Bool) (message : String) (sid : String)
    (st : CMState) : CMState × List (String × String) × Option String :=
  if sessHasKey st.sessions sid then
    broadcastLoop sendOk message sid (sessionSize st sid) (sessGet st.sessions sid) st []
  else (st, [], none)

/-- The registry operations reachable from the server endpoints, for stating
reachability over operation sequences. The send success predicate of a
broadcast is the health of each target socket at that moment. -/
inductive CMOp where
  | connect (cid : String)
  | setMeta (cid : String) (m : CMeta)
  | disconnect (cid : String)
  | send (sendOk : String → Bool) (message cid : String)
  | broadcast (sendOk : String → Bool) (message sid : String)

def CMOp.apply (st : CMState) : CMOp → CMState
  | .connect cid => cmConnect cid st
  | .setMeta cid m => set_client_metadata cid m st
  | .disconnect cid => cmDisconnect cid st
  | .send sendOk message cid => (send_personal_message sendOk message cid st).1
  | .broadcast sendOk message sid => (broadcast_to_session sendOk message sid st).1

def applyOps (ops : List CMOp) (st : CMState) : CMState :=
  ops.foldl CMOp.apply st

/-- Decidable statement of the membership invariant of claim C9: every
connection id occurring in some membership set occurs in at most one. -/
def atMostOneSession (st : CMState) : Bool :=
  (st.sessions.map Prod.snd).flatten.all (fun cid =>
    (st.sessions.filter (fun p => p.2.contains cid)).length ≤ 1)

/-! ### Concrete fixtures used by the claim theorems and witnesses -/

/-- A concrete stand-in for the external cosine-distance collaborator. -/
def dist0 : Embedding → Embedding → Rat := fun _ _ => 0

/-- An oracle outcome for paths on which the oracle is never consulted. -/
def dOracle : Except String SolutionSuggestion := Except.error "unused"

def evt0 : DevEvent :=
  { id := "e0", type := EventType.log, timestamp := 0, session_id := some "s1"
    content := [("message", JVal.str "hello")], stack_trace := none, context := [] }

def ffStream : FacetFaults := { streamFails := true }

def ffGraph : FacetFaults := { graphFails := true }

/-- The registry state of spec scenario C: two connections a and b joined
session s2 through the init step. -/
def cmC2 : CMState :=
  applyOps
    [CMOp.connect "a", CMOp.connect "b",
     CMOp.setMeta "a" { session_id := some "s2" },
     CMOp.setMeta "b" { session_id := some "s2" }] cmInit

/-- Socket health of scenario C: the socket of a is broken. -/
def sendOkC2 : String → Bool := fun cid => cid != "a"

/-- The operation sequence refuting the membership invariant of claim C9: one
connection binds its metadata to session s1 and then re-binds to session s2. -/
def cmOpsC9 : List CMOp :=
  [CMOp.connect "c",
   CMOp.setMeta "c" { session_id := some "s1" },
   CMOp.setMeta "c" { session_id := some "s2" }]

/-- A registry state with connection c a member of session s1, used by the C9
witness. -/
def cmW : CMState :=
  applyOps [CMOp.connect "c", CMOp.setMeta "c" { session_id := some "s1" }] cmInit

/-- Projections of an ingest result onto decidable views, used by closed claim
statements (the full response type carries JSON payloads whose equality is not
structurally decided in this development). -/
def resultErr : Except IngestError IngestResponse → Option IngestError
  | Except.error e => some e
  | Except.ok _ => none

def resultStatus : Except IngestError IngestResponse → Option (Option String)
  | Except.error _ => none
  | Except.ok r => some r.status

def resultEventId : Except IngestError IngestResponse → Option String
  | Except.error _ => none
  | Except.ok r => some r.event_id

def resultHasSolution : Except IngestError IngestResponse → Option Bool
  | Except.error _ => none
  | Except.ok r => some r.solution.isSome

/-- A raw payload with a known type and no session id at all. -/
def rawNoSession : RawEvent :=
  { type := some "log", content := [("message", JVal.str "hello")] }

/-- A raw payload with an unknown type string. -/
def rawBogus : RawEvent :=
  { type := some "bogus", session_id := some "s1" }

/-- A raw payload with no type key at all. -/
def rawNoType : RawEvent :=
  { session_id := some "s1", content := [("message", JVal.str "hi")] }

/-- A raw error payload whose persistence succeeds while analysis fails. -/
def rawErrC5 : RawEvent :=
  { type := some "error", session_id := some "s1"
    content := [("message", JVal.str "boom")], stack_trace := some "tb" }

/-- The error event of spec scenario D, with id e1. -/
def evE1 : DevEvent :=
  { id := "e1", type := EventType.error, timestamp := 1, session_id := some "s1"
    content := [("message", JVal.str "TypeErr")], stack_trace := some "tb", context := [] }

/-- A concrete oracle solution suggestion. -/
def solX : SolutionSuggestion :=
  { root_cause := "rc", solution_code := "fix()", explanation := "because"
    confidence := 1 / 2, similar_cases := [], pattern_name := "p" }

/-- Storage state after storing the error event e1 and its solution attempt
sol_e1, the setup of spec scenario D. -/
def stC4 : StorageState :=
  store_solution_attempt 1 evE1 solX "history" (store_event noFaults evE1 st0).2.1

/-- Storage state after scenario D: one successful and one failed outcome
recorded for sol_e1. -/
def stC4b : StorageState :=
  record_outcome 3 "sol_e1" false [] (record_outcome 2 "sol_e1" true [] stC4)

/-- One log row of session s with timestamp i and message text indexed by i. -/
def rowC7 (i : Nat) : PgRow :=
  { id := "e" ++ toString i, type := "log", timestamp := i, session_id := some "s"
    content := [("message", JVal.str ("m" ++ toString i))], stack_trace := none
    context := [], embedding := []
    changelog :=
      { id := "e" ++ toString i, type := "log", timestamp := toString i
        session_id := some "s", content := [("message", JVal.str ("m" ++ toString i))]
        context := [], hash := "" } }

/-- A session with twenty stored events, timestamps 1 through 20. -/
def stC7 : StorageState :=
  { st0 with dev_events := (List.range 20).map (fun i => rowC7 (i + 1)) }

/-- The error event of session s under analysis in the C7 scenario. -/
def evC7 : DevEvent :=
  { id := "q", type := EventType.error, timestamp := 21, session_id := some "s"
    content := [("message", JVal.str "boom")], stack_trace := none, context := [] }

/-- A small corpus for the C6 witness: one log row, one error row, and one
error row sharing the query id. -/
def rowsC6 : List PgRow :=
  [rowC7 1, { rowC7 2 with type := "error" }, { rowC7 3 with type := "error", id := "q" }]

/-- The event whose content carries two keys inserted in unsorted order, for
the C8 witness. -/
def evC8 : DevEvent :=
  { id := "h1", type := EventType.log, timestamp := 0, session_id := some "s"
    content := [("b", JVal.num 1), ("a", JVal.str "x")], stack_trace := none, context := [] }

/-! ### Claim C1 -/

/-- C1, counterexample. The claim states that a failure of the stream append
does not prevent the subsequent relational and graph writes and that the
operation fails only when the relational write fails. In the code the stream
failure propagates immediately: the relational and graph facets stay
unwritten although they are healthy, and the whole operation also fails when
only the graph upsert fails. -/
theorem c1_counterexample :
    ((store_event ffStream evt0 st0).2.2 ≠ none
      ∧ (store_event ffStream evt0 st0).2.1.dev_events.length = 0
      ∧ (store_event ffStream evt0 st0).2.1.graph.belongsEdges.length = 0)
    ∧ (store_event ffGraph evt0 st0).2.2 ≠ none := by decide

/-- C1, amended: store_event runs embedding, stream append, relational insert
and graph upsert strictly in sequence with no error handling. The first
failing step makes the whole operation fail, every write before it is kept
(never rolled back), and every write after it is skipped; the operation
succeeds only when all four steps succeed. -/
theorem c1_fail_fast (f : FacetFaults) (e : DevEvent) (st : StorageState) :
    ((store_event f e st).2.2 = none ↔
      f.embedFails = false ∧ f.streamFails = false ∧ f.pgFails = false ∧ f.graphFails = false)
    ∧ (store_event f e st).2.1.stream.length =
        st.stream.length + (if f.embedFails || f.streamFails then 0 else 1)
    ∧ (store_event f e st).2.1.dev_events.length =
        st.dev_events.length + (if f.embedFails || f.streamFails || f.pgFails then 0 else 1)
    ∧ (store_event f e st).2.1.graph.belongsEdges.length =
        st.graph.belongsEdges.length +
          (if f.embedFails || f.streamFails || f.pgFails || f.graphFails then 0 else 1) := by
  obtain ⟨e1, e2, e3, e4⟩ := f
  cases e1 <;> cases e2 <;> cases e3 <;> cases e4 <;>
    simp [store_event, List.length_append]

/-! ### Claim C2 -/

/-- C2, behavior of the code at the failing input. broadcast_to_session
iterates the live membership set, not a snapshot: the failing send to a makes
send_personal_message disconnect a immediately, mutating the set during
iteration, so the loop raises RuntimeError, nothing is ever delivered (the
healthy member b is never reached), and broadcast does raise. -/
theorem c2_code_bug :
    (broadcast_to_session sendOkC2 "msg" "s2" cmC2).2.2 =
        some "RuntimeError: Set changed size during iteration"
    ∧ (broadcast_to_session sendOkC2 "msg" "s2" cmC2).2.1 = []
    ∧ sessGet (broadcast_to_session sendOkC2 "msg" "s2" cmC2).1.sessions "s2" = ["b"]
    ∧ (broadcast_to_session sendOkC2 "msg" "s2" cmC2).1.active = ["b"] := by decide

/-! ### Claim C9 -/

/-- C9, counterexample. After the re-binding sequence the connection c is a
member of both s1 and s2: the reachable state violates the at-most-one-session
invariant, and the re-binding did not move the connection out of s1. -/
theorem c9_counterexample :
    atMostOneSession (applyOps cmOpsC9 cmInit) = false
    ∧ sessGet (applyOps cmOpsC9 cmInit).sessions "s1" = ["c"]
    ∧ sessGet (applyOps cmOpsC9 cmInit).sessions "s2" = ["c"] := by decide

/-- Adding a member to one session leaves its memberships in every session
untouched or grown: an existing membership survives sessAdd. -/
theorem sessAdd_mem_mono {S : List (String × List String)} {k cid0 : String}
    (sid cid : String) (h : cid0 ∈ sessGet S k) :
    cid0 ∈ sessGet (sessAdd S sid cid) k := by
  induction S with
  | nil => simp [sessGet] at h
  | cons p rest ih =>
      obtain ⟨k0, ms⟩ := p
      by_cases hks : k0 = sid
      · subst hks
        by_cases hkk : k0 = k
        · subst hkk
          simp only [sessGet, if_pos rfl] at h
          simp only [sessAdd, if_pos rfl, sessGet, if_pos rfl]
          by_cases hin : cid ∈ ms
          · rw [if_pos hin]; exact h
          · rw [if_neg hin]
            exact List.mem_append_left _ h
        · simp only [sessGet, if_neg hkk] at h
          simp only [sessAdd, if_pos rfl, sessGet, if_neg hkk]
          exact h
      · simp only [sessAdd, if_neg hks]
        by_cases hkk : k0 = k
        · subst hkk
          simp only [sessGet, if_pos rfl] at h ⊢
          exact h
        · simp only [sessGet, if_neg hkk] at h ⊢
          exact ih h

/-- After sessAdd the added member belongs to the target session. -/
theorem sessAdd_mem_self (S : List (String × List String)) (sid cid : String) :
    cid ∈ sessGet (sessAdd S sid cid) sid := by
  induction S with
  | nil => simp [sessAdd, sessGet]
  | cons p rest ih =>
      obtain ⟨k0, ms⟩ := p
      by_cases hks : k0 = sid
      · subst hks
        simp only [sessAdd, if_pos rfl, sessGet, if_pos rfl]
        by_cases hin : cid ∈ ms
        · rw [if_pos hin]; exact hin
        · rw [if_neg hin]
          exact List.mem_append_right _ (List.mem_singleton.mpr rfl)
      · simp only [sessAdd, if_neg hks, sessGet, if_neg hks]
        exact ih

/-- C9, amended: a connection id may appear in the membership sets of several
sessions. set_client_metadata adds the connection to the session named by the
new metadata (when that id is truthy) but never removes it from a previously
bound session, so re-binding accumulates memberships instead of moving the
connection. -/
theorem c9_rebind_accumulates (st : CMState) (cid s1 : String) (m : CMeta)
    (h : cid ∈ sessGet st.sessions s1) :
    cid ∈ sessGet (set_client_metadata cid m st).sessions s1
    ∧ ∀ s2, m.session_id = some s2 → s2 ≠ "" →
        cid ∈ sessGet (set_client_metadata cid m st).sessions s2 := by
  unfold set_client_metadata
  cases hm : m.session_id with
  | none =>
      refine ⟨h, ?_⟩
      intro s2 hs2
      simp [hm] at hs2
  | some sid =>
      dsimp only
      by_cases hne : sid ≠ ""
      · rw [if_pos hne]
        refine ⟨sessAdd_mem_mono sid cid h, ?_⟩
        intro s2 hs2 _
        obtain rfl := Option.some.inj hs2
        exact sessAdd_mem_self st.sessions sid cid
      · rw [if_neg hne]
        refine ⟨h, ?_⟩
        intro s2 hs2 hs2ne
        obtain rfl := Option.some.inj hs2
        exact absurd hs2ne hne

/-- C9, witness for the amended theorem: in the concrete registry state cmW
the re-binding of c from s1 to s2 leaves c in both membership sets. -/
theorem c9_rebind_witness :
    "c" ∈ sessGet (set_client_metadata "c" { session_id := some "s2" } cmW).sessions "s1"
    ∧ "c" ∈ sessGet (set_client_metadata "c" { session_id := some "s2" } cmW).sessions "s2" :=
  ⟨(c9_rebind_accumulates cmW "c" "s1" { session_id := some "s2" } (by decide)).1,
   (c9_rebind_accumulates cmW "c" "s1" { session_id := some "s2" } (by decide)).2
      "s2" rfl (by decide)⟩

/-! ### Claim C3 -/

/-- C3, counterexample. A payload with a known type and an absent session id
is not rejected: ingestion raises nothing and the event is persisted with a
NULL session id, refuting the claimed ValidationError for missing session
ids. -/
theorem c3_counterexample :
    resultErr (ingest_event 2 dist0 noFaults dOracle rawNoSession st0).2 = none
    ∧ (ingest_event 2 dist0 noFaults dOracle rawNoSession st0).1.dev_events.map
        (fun r => r.session_id) = [none] := by decide

/-- C3, amended: an unknown type string is rejected before any persistence
attempt with the ValueError of the enum constructor (the state is returned
unchanged), while the session id is never validated: whenever the defaulted
type string is known, normalization succeeds and copies the session id, absent
or empty as it may be, into the canonical event. -/
theorem c3_validation (now : Nat) (dist : Embedding → Embedding → Rat) (f : FacetFaults)
    (oracle : Except String SolutionSuggestion) (raw : RawEvent) (st : StorageState) :
    (eventTypeOfString (pyGetD raw.type "log") = none →
        ingest_event now dist f oracle raw st =
          (st, Except.error (IngestError.valueError (pyGetD raw.type "log"))))
    ∧ (∀ t, eventTypeOfString (pyGetD raw.type "log") = some t →
        ∃ e, ingestNormalize now raw = Except.ok e
          ∧ e.session_id = raw.session_id ∧ e.type = t) := by
  constructor
  · intro h
    simp [ingest_event, ingestNormalize, h]
  · intro t h
    exact ⟨{ id := "evt_" ++ toString now ++ "_" ++ pyOptStr raw.type, type := t
             timestamp := now, session_id := raw.session_id, content := raw.content
             stack_trace := raw.stack_trace, context := raw.context, embedding := none },
           by simp [ingestNormalize, h], rfl, rfl⟩

/-- C3, witness: the amended theorem applied at an unknown type string and at
a payload with no session id. -/
theorem c3_validation_witness :
    ingest_event 1 dist0 noFaults dOracle rawBogus st0 =
        (st0, Except.error (IngestError.valueError "bogus"))
    ∧ ∃ e, ingestNormalize 1 rawNoSession = Except.ok e
        ∧ e.session_id = none ∧ e.type = EventType.log :=
  ⟨(c3_validation 1 dist0 noFaults dOracle rawBogus st0).1 (by decide),
   (c3_validation 1 dist0 noFaults dOracle rawNoSession st0).2 EventType.log (by decide)⟩

/-! ### Claim C10 -/

/-- C10: a raw payload without a type key is not rejected. The event type
defaults to log, ingestion answers with status stored and no solution, and the
generated event id interpolates the undefaulted lookup, embedding the literal
text None instead of the defaulted type. -/
theorem c10_missing_type (now : Nat) (dist : Embedding → Embedding → Rat)
    (oracle : Except String SolutionSuggestion) (raw : RawEvent) (st : StorageState)
    (hty : raw.type = none) :
    resultStatus (ingest_event now dist noFaults oracle raw st).2 = some (some "stored")
    ∧ resultHasSolution (ingest_event now dist noFaults oracle raw st).2 = some false
    ∧ resultEventId (ingest_event now dist noFaults oracle raw st).2 =
        some ("evt_" ++ toString now ++ "_" ++ "None")
    ∧ (∃ e, ingestNormalize now raw = Except.ok e ∧ e.type = EventType.log) := by
  have hlog : eventTypeOfString (pyGetD raw.type "log") = some EventType.log := by
    rw [hty]; decide
  have hnorm : ingestNormalize now raw = Except.ok
      { id := "evt_" ++ toString now ++ "_" ++ "None", type := EventType.log
        timestamp := now, session_id := raw.session_id, content := raw.content
        stack_trace := raw.stack_trace, context := raw.context, embedding := none } := by
    simp only [ingestNormalize, hty, pyOptStr]
    rfl
  refine ⟨?_, ?_, ?_, ⟨_, hnorm, rfl⟩⟩ <;>
    simp [ingest_event, hnorm, store_event, noFaults, resultStatus, resultHasSolution,
      resultEventId]

/-- C10, witness: the theorem applied to the concrete payload without a type
key. -/
theorem c10_missing_type_witness :
    resultStatus (ingest_event 5 dist0 noFaults dOracle rawNoType st0).2 = some (some "stored")
    ∧ resultHasSolution (ingest_event 5 dist0 noFaults dOracle rawNoType st0).2 = some false
    ∧ resultEventId (ingest_event 5 dist0 noFaults dOracle rawNoType st0).2 =
        some ("evt_" ++ toString 5 ++ "_" ++ "None")
    ∧ (∃ e, ingestNormalize 5 rawNoType = Except.ok e ∧ e.type = EventType.log) :=
  c10_missing_type 5 dist0 dOracle rawNoType st0 rfl

/-! ### Claim C5 -/

/-- C5, counterexample. An error payload stores successfully, the oracle
fails, and ingest_event propagates the analysis failure instead of returning
the stored status without a solution; the event row is nevertheless
committed. -/
theorem c5_counterexample :
    resultErr (ingest_event 7 dist0 noFaults (Except.error "timeout") rawErrC5 st0).2 =
        some (IngestError.analysis "timeout")
    ∧ (ingest_event 7 dist0 noFaults (Except.error "timeout") rawErrC5 st0).1.dev_events.map
        (fun r => r.id) = ["evt_7_error"] := by decide

/-- C5, amended: when persistence succeeds and the analysis oracle fails on an
error event, ingest_event raises the analysis failure (there is no response
carrying the stored status), the already committed event row remains in the
relational store, and the WebSocket processor catches the exception and
returns None. -/
theorem c5_analysis_failure (now : Nat) (dist : Embedding → Embedding → Rat)
    (msg : String) (raw : RawEvent) (sid : String) (st : StorageState)
    (hty : eventTypeOfString (pyGetD raw.type "log") = some EventType.error) :
    resultErr (ingest_event now dist noFaults (Except.error msg) raw st).2 =
        some (IngestError.analysis msg)
    ∧ (ingest_event now dist noFaults (Except.error msg) raw st).1.dev_events.length =
        st.dev_events.length + 1
    ∧ (process_event now dist noFaults (Except.error msg) raw sid st).2 = none := by
  have hnorm : ingestNormalize now raw = Except.ok
      { id := "evt_" ++ toString now ++ "_" ++ pyOptStr raw.type, type := EventType.error
        timestamp := now, session_id := raw.session_id, content := raw.content
        stack_trace := raw.stack_trace, context := raw.context, embedding := none } := by
    simp [ingestNormalize, hty]
  refine ⟨?_, ?_, ?_⟩
  · simp [ingest_event, hnorm, store_event, noFaults, analyze_error, resultErr]
  · simp [ingest_event, hnorm, store_event, noFaults, analyze_error]
  · have hg : pyGetD (some "error") "log" = "error" := rfl
    have he : eventTypeOfString "error" = some EventType.error := by decide
    simp [process_event, hty, EventType.value, ingest_event, ingestNormalize, hg, he,
      store_event, noFaults, analyze_error]

/-- C5, witness: the amended theorem at the concrete error payload. -/
theorem c5_analysis_failure_witness :
    resultErr (ingest_event 3 dist0 noFaults (Except.error "boom") rawErrC5 st0).2 =
        some (IngestError.analysis "boom")
    ∧ (ingest_event 3 dist0 noFaults (Except.error "boom") rawErrC5 st0).1.dev_events.length =
        st0.dev_events.length + 1
    ∧ (process_event 3 dist0 noFaults (Except.error "boom") rawErrC5 "s9" st0).2 = none :=
  c5_analysis_failure 3 dist0 "boom" rawErrC5 "s9" st0 (by decide)

/-! ### Claim C4 -/

/-- C4, behavior of the code at the failing input of spec scenario D. Two
outcomes, one successful and one failed, are appended and linked from the
solution sol_e1, but the recomputed success rate is SQL NULL rather than the
claimed 0.5: the UPDATE averages over the dspy_history outcomes array, a key
that no code path ever writes, so the subquery is empty and AVG yields NULL. -/
theorem c4_code_bug :
    stC4b.graph.outcomeNodes.map (fun o => o.success) = [true, false]
    ∧ stC4b.graph.resultedInEdges.length = 2
    ∧ solutionRateById stC4b "sol_e1" = some none
    ∧ solutionRateById stC4b "sol_e1" ≠ some (some (1 / 2)) := by decide

/-! ### Claim C7 -/

/-- C7, behavior of the code at the failing input. With twenty session events
of timestamps 1 through 20, _get_recent_events returns the twenty most recent
in descending order and the slice recent_events[-10:] keeps its tail: the
rolling context handed to the oracle holds the messages of the events with
timestamps 10 down to 1, the oldest ten of the window, not the claimed ten
most recent (timestamps 20 down to 11). -/
theorem c7_code_bug :
    (buildErrorContext evC7 (get_recent_events stC7 evC7.session_id)).recent_actions =
      ["m10", "m9", "m8", "m7", "m6", "m5", "m4", "m3", "m2", "m1"]
    ∧ (buildErrorContext evC7 (get_recent_events stC7 evC7.session_id)).recent_actions ≠
      ["m20", "m19", "m18", "m17", "m16", "m15", "m14", "m13", "m12", "m11"] := by decide

/-! ### Claim C6 -/

/-- C6: similarity retrieval returns at most five summaries, never the query
id itself, only summaries of stored rows of type error, and the results are
ordered by non-increasing similarity (similarity is one minus the cosine
distance, and the rows come sorted by ascending distance). -/
theorem c6_find_similar (dist : Embedding → Embedding → Rat) (qEmb : Embedding)
    (qId : String) (rows : List PgRow) :
    (find_similar_errors dist qEmb qId rows).length ≤ 5
    ∧ (∀ x ∈ find_similar_errors dist qEmb qId rows, x.id ≠ qId)
    ∧ (∀ x ∈ find_similar_errors dist qEmb qId rows,
        ∃ r ∈ rows, r.id = x.id ∧ r.type = "error")
    ∧ (find_similar_errors dist qEmb qId rows).Pairwise
        (fun a b => b.similarity ≤ a.similarity) := by
  have hmem : ∀ x ∈ find_similar_errors dist qEmb qId rows,
      ∃ r, r ∈ rows ∧ r.type = "error" ∧ r.id ≠ qId ∧ x.id = r.id := by
    intro x hx
    simp only [find_similar_errors, List.mem_map] at hx
    obtain ⟨r, hr, rfl⟩ := hx
    have hr2 := List.mem_of_mem_take hr
    rw [List.mem_insertionSort] at hr2
    have hr3 := List.mem_filter.mp hr2
    have hpr := of_decide_eq_true hr3.2
    exact ⟨r, hr3.1, hpr.1, hpr.2, rfl⟩
  refine ⟨?_, ?_, ?_, ?_⟩
  · simp only [find_similar_errors, List.length_map]
    simp [List.length_take]
  · intro x hx
    obtain ⟨r, _, _, hne, hid⟩ := hmem x hx
    rw [hid]; exact hne
  · intro x hx
    obtain ⟨r, hrows, htype, _, hid⟩ := hmem x hx
    exact ⟨r, hrows, hid.symm, htype⟩
  · simp only [find_similar_errors]
    have hsorted : List.Pairwise (distRel (fun r => dist qEmb r.embedding))
        (List.insertionSort (distRel (fun r => dist qEmb r.embedding))
          (rows.filter (fun r => decide (r.type = "error" ∧ r.id ≠ qId)))) :=
      List.sorted_insertionSort _ _
    have htake := List.Pairwise.sublist (List.take_sublist 5 _) hsorted
    refine List.pairwise_map.mpr (htake.imp ?_)
    intro a b hab
    exact sub_le_sub_left hab 1

/-- C6, witness: the theorem applied to the concrete corpus rowsC6. -/
theorem c6_find_similar_witness :
    (find_similar_errors dist0 [] "q" rowsC6).length ≤ 5
    ∧ (find_similar_errors dist0 [] "q" rowsC6).Pairwise
        (fun a b => b.similarity ≤ a.similarity) :=
  ⟨(c6_find_similar dist0 [] "q" rowsC6).1, (c6_find_similar dist0 [] "q" rowsC6).2.2.2⟩

/-! ### Claim C8 -/

/-- The rendered field list is the elementwise rendering of the fields. -/
theorem dumpsFields_eq_map (fs : List (String × JVal)) :
    dumpsSorted.dumpsFields fs =
      fs.map (fun kv => (kv.1, "\"" ++ kv.1 ++ "\": " ++ dumpsSorted kv.2)) := by
  induction fs with
  | nil => rfl
  | cons kv rest ih =>
      obtain ⟨k, v⟩ := kv
      simp [dumpsSorted.dumpsFields, ih]

/-- Sorting rendered fields by key maps permuted inputs with duplicate-free
keys to the same list: the two sorts are permutations of each other, both are
sorted, and with distinct keys the key order is strict, hence antisymmetric. -/
theorem sortFields_eq_of_perm (l1 l2 : List (String × String))
    (hp : l1.Perm l2) (hnd : (l1.map Prod.fst).Nodup) :
    sortFields l1 = sortFields l2 := by
  have hs1 : List.Pairwise fieldLe (sortFields l1) := List.sorted_insertionSort _ _
  have hs2 : List.Pairwise fieldLe (sortFields l2) := List.sorted_insertionSort _ _
  have hperm : (sortFields l1).Perm (sortFields l2) :=
    (List.perm_insertionSort _ l1).trans (hp.trans (List.perm_insertionSort _ l2).symm)
  have hnd1 : ((sortFields l1).map Prod.fst).Nodup :=
    (((List.perm_insertionSort fieldLe l1).map Prod.fst).nodup_iff).mpr hnd
  have hnd2 : ((sortFields l2).map Prod.fst).Nodup :=
    ((hperm.map Prod.fst).nodup_iff).mp hnd1
  have hne1 : (sortFields l1).Pairwise (fun a b : String × String => a.1 ≠ b.1) :=
    List.pairwise_map.mp hnd1
  have hne2 : (sortFields l2).Pairwise (fun a b : String × String => a.1 ≠ b.1) :=
    List.pairwise_map.mp hnd2
  have hlt1 : (sortFields l1).Pairwise (fun a b : String × String => a.1 < b.1) :=
    (hs1.and hne1).imp (fun h => lt_of_le_of_ne h.1 h.2)
  have hlt2 : (sortFields l2).Pairwise (fun a b : String × String => a.1 < b.1) :=
    (hs2.and hne2).imp (fun h => lt_of_le_of_ne h.1 h.2)
  haveI : IsAntisymm (String × String) (fun a b : String × String => a.1 < b.1) :=
    ⟨fun _ _ h1 h2 => ((lt_asymm h1) h2).elim⟩
  exact List.eq_of_perm_of_sorted hperm hlt1 hlt2

/-- C8: the content fingerprint of the changelog entry is invariant under a
permutation of the content key insertion order, because the hash is taken of
the canonical key-sorted dump of the content. -/
theorem c8_fingerprint_deterministic (e : DevEvent) (c2 : List (String × JVal))
    (hp : e.content.Perm c2) (hnd : (e.content.map Prod.fst).Nodup) :
    ({ e with content := c2 } : DevEvent).to_changelog_entry.hash
      = e.to_changelog_entry.hash := by
  have hfields : (dumpsSorted.dumpsFields e.content).Perm (dumpsSorted.dumpsFields c2) := by
    rw [dumpsFields_eq_map, dumpsFields_eq_map]
    exact hp.map _
  have hndf : ((dumpsSorted.dumpsFields e.content).map Prod.fst).Nodup := by
    have hco : ((dumpsSorted.dumpsFields e.content).map Prod.fst) = e.content.map Prod.fst := by
      rw [dumpsFields_eq_map, List.map_map]; rfl
    rw [hco]; exact hnd
  have hsort : sortFields (dumpsSorted.dumpsFields e.content)
      = sortFields (dumpsSorted.dumpsFields c2) :=
    sortFields_eq_of_perm _ _ hfields hndf
  have hdump : dumpsSorted (JVal.obj c2) = dumpsSorted (JVal.obj e.content) := by
    simp only [dumpsSorted]
    rw [hsort]
  simp only [DevEvent.to_changelog_entry]
  rw [hdump]

/-- C8, witness: the theorem applied to the two-key content of evC8 with its
keys transposed. -/
theorem c8_fingerprint_witness :
    (DevEvent.to_changelog_entry
        { evC8 with content := [("a", JVal.str "x"), ("b", JVal.num 1)] }).hash
      = (DevEvent.to_changelog_entry evC8).hash :=
  c8_fingerprint_deterministic evC8 [("a", JVal.str "x"), ("b", JVal.num 1)]
    (List.Perm.swap ("a", JVal.str "x") ("b", JVal.num 1) []) (by decide)
